import Mathlib

/-!
Shallow embedding of the core of `src/src/SSLClient.cpp` (SSLClient, OPEnSLab-OSU):
the engine pump (`m_update_engine`), the pump driver (`m_run_until`), the buffered
write accumulator (`write`/`flush`), the session cache (`m_start_ssl` store step,
`m_get_session_index`, `removeSession`) and the connection lifecycle
(`connected`, `stop`, `m_soft_connected`, `m_start_ssl`).

The BearSSL engine and the Arduino transport client are external collaborators:
they are modelled as oracles, a record of pure functions over an abstract state
type.  Loops in the source are modelled with an explicit fuel parameter (running
out of fuel yields `none`); every engine acknowledgement and every transport
transfer performed by the code is additionally recorded in an event trace, with
the buffer length the engine had reported at that moment, so that theorems can
speak about which bytes were acknowledged.  Debug printing (`m_info`/`m_warn`/
`m_error`, `m_print_*`, `m_br_last_state`, the `lastState`/`lastLen` locals of
`m_run_until`) has no effect on control flow and is omitted.  Wall-clock time
(`millis`) is a counter in the state, advanced by the `delay(10)` call of
`m_update_engine`.
-/

namespace SSLCl

/-- BearSSL engine state bit `BR_SSL_CLOSED` (bearssl_ssl.h). -/
def BR_SSL_CLOSED : Nat := 1

/-- BearSSL engine state bit `BR_SSL_SENDREC`. -/
def BR_SSL_SENDREC : Nat := 2

/-- BearSSL engine state bit `BR_SSL_RECVREC`. -/
def BR_SSL_RECVREC : Nat := 4

/-- BearSSL engine state bit `BR_SSL_SENDAPP`. -/
def BR_SSL_SENDAPP : Nat := 8

/-- BearSSL engine state bit `BR_SSL_RECVAPP`. -/
def BR_SSL_RECVAPP : Nat := 16

/-- Error code `SSL_OK` of `enum Error` (SSLClientImpl.h). -/
def SSL_OK : Nat := 0

/-- Error code `SSL_CLIENT_CONNECT_FAIL`. -/
def SSL_CLIENT_CONNECT_FAIL : Nat := 1

/-- Error code `SSL_BR_CONNECT_FAIL`. -/
def SSL_BR_CONNECT_FAIL : Nat := 2

/-- Error code `SSL_CLIENT_WRTIE_ERROR` (sic, as in the source). -/
def SSL_CLIENT_WRTIE_ERROR : Nat := 3

/-- Error code `SSL_BR_WRITE_ERROR`. -/
def SSL_BR_WRITE_ERROR : Nat := 4

/-- Error code `SSL_INTERNAL_ERROR`. -/
def SSL_INTERNAL_ERROR : Nat := 5

/-- Error code `SSL_OUT_OF_MEMORY`. -/
def SSL_OUT_OF_MEMORY : Nat := 6

/-- One entry of the session cache (`SSLSession`); only the hostname key is
relevant to the cache logic, the `br_ssl_session_parameters` blob is opaque to
the core and is not modelled. -/
structure SSLSession where
  hostname : String
deriving Repr, DecidableEq

/-- Oracle model of the BearSSL engine interface used by SSLClient.cpp.
`ε` is the engine's opaque internal state.  Buffer accessors report the length
the engine currently offers; a `none` buffer models a NULL pointer (for which
BearSSL reports length 0). -/
structure Engine (ε : Type) where
  currentState : ε → Nat
  sendrecBuf : ε → Nat
  sendrecAck : ε → Nat → ε
  recvrecBuf : ε → Nat
  recvrecAck : ε → Nat → ε
  sendappBuf : ε → Option Nat
  sendappAck : ε → Nat → ε
  recvappBuf : ε → Option (List Nat)
  recvappAck : ε → Nat → ε
  flush : ε → ε
  injectEntropy : ε → ε
  setSession : ε → ε
  reset : ε → Option String → Bool × ε

/-- Length reported by `br_ssl_engine_sendapp_buf` (0 when the buffer is NULL,
as BearSSL sets `*len = 0` in that case). -/
def Engine.sendappLen (E : Engine ε) (e : ε) : Nat :=
  (E.sendappBuf e).getD 0

/-- Length reported by `br_ssl_engine_recvapp_buf` (0 when NULL). -/
def Engine.recvappLen (E : Engine ε) (e : ε) : Nat :=
  ((E.recvappBuf e).map List.length).getD 0

/-- Oracle model of the Arduino `Client` transport used by SSLClient.cpp.
`write`/`read` return the signed count the Arduino client reports and the
transport's next state. -/
structure Transport (τ : Type) where
  connected : τ → Bool
  connect : τ → Bool × τ
  write : τ → Nat → Int × τ
  read : τ → Nat → Int × τ
  available : τ → Nat
  flush : τ → τ
  stop : τ → τ
  getWriteError : τ → Nat

/-- The two external collaborators bundled. -/
structure Model (ε τ : Type) where
  E : Engine ε
  T : Transport τ

/-- State of one `SSLClient` object together with its external world:
the fields mirror `m_write_idx`, the sticky write error of `Print`
(`setWriteError`/`getWriteError`), `m_is_connected`, `m_sessions`,
`m_max_sessions` and `m_timeout`; `clock` is the `millis()` wall clock. -/
structure SSLState (ε τ : Type) where
  eng : ε
  cli : τ
  writeIdx : Nat
  writeError : Nat
  isConnected : Bool
  sessions : List SSLSession
  maxSessions : Nat
  timeout : Nat
  clock : Nat
deriving DecidableEq

/-- Observable interactions with the collaborators: each engine ack records the
amount acknowledged and the length the engine had reported for that buffer at
that moment; transport transfers record the requested length and the signed
result. -/
inductive Event where
  | sendrecAck (amount reported : Nat)
  | sendappAck (amount reported : Nat)
  | recvrecAck (amount reported : Nat)
  | recvappAck (amount reported : Nat)
  | netWrite (requested : Nat) (result : Int)
  | netRead (requested : Nat) (result : Int)
deriving Repr, DecidableEq

/-- An acknowledgement event is in bounds when the amount acknowledged does not
exceed the length the engine had reported; transport events are unconstrained. -/
def ackOk : Event → Bool
  | .sendrecAck a r => a ≤ r
  | .sendappAck a r => a ≤ r
  | .recvrecAck a r => a ≤ r
  | .recvappAck a r => a ≤ r
  | .netWrite _ _ => true
  | .netRead _ _ => true

/-- All events of a trace are in bounds. -/
def EventsOk (evs : List Event) : Prop := ∀ e ∈ evs, ackOk e = true

variable {ε τ : Type}

/-- `SSLClient::m_soft_connected`: refuse when the sticky write error is set, or
when the client is not marked connected, or the engine reports `BR_SSL_CLOSED`. -/
def m_soft_connected (M : Model ε τ) (st : SSLState ε τ) : Bool :=
  if st.writeError ≠ 0 then false
  else if ¬ st.isConnected ∨ M.E.currentState st.eng = BR_SSL_CLOSED then false
  else true

mutual

/-- `SSLClient::m_update_engine`: the engine pump.  One call loops, in priority
order: closed check, pending outgoing ciphertext (`SENDREC`), pending
accumulated application data (`m_write_idx > 0`), incoming ciphertext
(`RECVREC`), otherwise return the state.  Fueled; returns the engine state
(0 signals failure), the new state and the event trace. -/
def m_update_engine (M : Model ε τ) :
    Nat → SSLState ε τ → Option (Nat × SSLState ε τ × List Event)
  | 0, _ => none
  | fuel+1, st =>
    let state := M.E.currentState st.eng
    if state &&& BR_SSL_CLOSED ≠ 0 then some (state, st, [])
    else if state &&& BR_SSL_SENDREC ≠ 0 then
      -- write the pending record bytes to the transport, then flush it
      let len := M.E.sendrecBuf st.eng
      let wr := M.T.write st.cli len
      let wlen := wr.1
      let cli2 := M.T.flush wr.2
      let st1 := { st with cli := cli2 }
      if wlen ≤ 0 then
        let st2 :=
          if M.T.getWriteError cli2 ≠ 0 ∨ M.T.connected cli2 = false then
            { st1 with writeError := SSL_CLIENT_WRTIE_ERROR }
          else st1
        match stopFn M fuel st2 with
        | none => none
        | some (st3, ev) => some (0, st3, Event.netWrite len wlen :: ev)
      else
        let st2 := { st1 with eng := M.E.sendrecAck st1.eng wlen.toNat }
        match m_update_engine M fuel st2 with
        | none => none
        | some (s, st3, ev) =>
          some (s, st3, Event.netWrite len wlen :: Event.sendrecAck wlen.toNat len :: ev)
    else if st.writeIdx > 0 then
      if state &&& BR_SSL_SENDAPP = 0 then
        -- m_write_idx > 0 but the engine is not ready for application data
        let st1 := { st with writeError := SSL_BR_WRITE_ERROR }
        match stopFn M fuel st1 with
        | none => none
        | some (st2, ev) => some (0, st2, ev)
      else
        match M.E.sendappBuf st.eng with
        | none =>
          -- engine set the write flag but returned a null buffer
          let st1 := { st with writeError := SSL_BR_WRITE_ERROR }
          match stopFn M fuel st1 with
          | none => none
          | some (st2, ev) => some (0, st2, ev)
        | some alen =>
          if alen = 0 then
            let st1 := { st with writeError := SSL_BR_WRITE_ERROR }
            match stopFn M fuel st1 with
            | none => none
            | some (st2, ev) => some (0, st2, ev)
          else if alen < st.writeIdx then
            -- sanity check: alen is less than m_write_idx
            let st1 := { st with writeError := SSL_INTERNAL_ERROR }
            match stopFn M fuel st1 with
            | none => none
            | some (st2, ev) => some (0, st2, ev)
          else
            let st1 := { st with eng := M.E.sendappAck st.eng st.writeIdx, writeIdx := 0 }
            match m_update_engine M fuel st1 with
            | none => none
            | some (s, st2, ev) => some (s, st2, Event.sendappAck st.writeIdx alen :: ev)
    else if state &&& BR_SSL_RECVREC ≠ 0 then
      let len := M.E.recvrecBuf st.eng
      let avail := M.T.available st.cli
      if avail > 0 then
        let rd := M.T.read st.cli (if avail < len then avail else len)
        let rlen := rd.1
        let st1 := { st with cli := rd.2 }
        if rlen ≤ 0 then
          let st2 := { st1 with writeError := SSL_CLIENT_WRTIE_ERROR }
          match stopFn M fuel st2 with
          | none => none
          | some (st3, ev) =>
            some (0, st3, Event.netRead (if avail < len then avail else len) rlen :: ev)
        else
          let st2 := { st1 with eng := M.E.recvrecAck st1.eng rlen.toNat }
          match m_update_engine M fuel st2 with
          | none => none
          | some (s, st3, ev) =>
            some (s, st3, Event.netRead (if avail < len then avail else len) rlen ::
              Event.recvrecAck rlen.toNat len :: ev)
      else
        -- delay(10) to avoid hammering the transport, report the state as-is
        some (state, { st with clock := st.clock + 10 }, [])
    else some (state, st, [])

/-- Loop body of `SSLClient::m_run_until` (the wrapper `m_run_until` below
fixes `start := millis()` at entry).  Per iteration: pump, closed/sticky-error
exit, timeout exit, target test, conflict resolution A (discard unread
application data when the target wants `SENDAPP`), conflict resolution B
(flush when the engine sits on `SENDAPP` and the target wants `RECVAPP`). -/
def runUntilLoop (M : Model ε τ) :
    Nat → Nat → Nat → SSLState ε τ → Option (Int × SSLState ε τ × List Event)
  | 0, _, _, _ => none
  | fuel+1, target, start, st =>
    match m_update_engine M fuel st with
    | none => none
    | some (state, st1, ev1) =>
      if state = BR_SSL_CLOSED ∨ st1.writeError ≠ SSL_OK then some (-1, st1, ev1)
      else if st1.clock - start > st1.timeout then
        let st2 := { st1 with writeError := SSL_BR_WRITE_ERROR }
        match stopFn M fuel st2 with
        | none => none
        | some (st3, ev2) => some (-1, st3, ev1 ++ ev2)
      else if state &&& target ≠ 0 ∨ (target = 0 ∧ state = 0) then some (0, st1, ev1)
      else if state &&& BR_SSL_RECVAPP ≠ 0 ∧ target &&& BR_SSL_SENDAPP ≠ 0 then
        match M.E.recvappBuf st1.eng with
        | some data =>
          let st2 := { st1 with writeIdx := 0, eng := M.E.recvappAck st1.eng data.length }
          match runUntilLoop M fuel target start st2 with
          | none => none
          | some (r, st3, ev2) =>
            some (r, st3, ev1 ++ Event.recvappAck data.length data.length :: ev2)
        | none =>
          let st2 := { st1 with writeError := SSL_BR_WRITE_ERROR }
          match stopFn M fuel st2 with
          | none => none
          | some (st3, ev2) => some (-1, st3, ev1 ++ ev2)
      else
        let st2 :=
          if state &&& BR_SSL_SENDAPP ≠ 0 ∧ target &&& BR_SSL_RECVAPP ≠ 0 then
            { st1 with eng := M.E.flush st1.eng }
          else st1
        match runUntilLoop M fuel target start st2 with
        | none => none
        | some (r, st3, ev2) => some (r, st3, ev1 ++ ev2)

/-- `SSLClient::stop`: if the engine is neither closed nor unstarted and
`connected()` holds, drain unread application data and `flush()`; then
unconditionally flush and stop the transport and clear `m_is_connected`. -/
def stopFn (M : Model ε τ) :
    Nat → SSLState ε τ → Option (SSLState ε τ × List Event)
  | 0, _ => none
  | fuel+1, st =>
    let state := M.E.currentState st.eng
    let inner : Option (SSLState ε τ × List Event) :=
      if state ≠ BR_SSL_CLOSED ∧ state ≠ 0 then
        match connectedFn M fuel st with
        | none => none
        | some (conn, st1, ev1) =>
          if conn then
            let drained :=
              match M.E.recvappBuf st1.eng with
              | some data =>
                ({ st1 with eng := M.E.recvappAck st1.eng data.length },
                  [Event.recvappAck data.length data.length])
              | none => (st1, [])
            match flushFn M fuel drained.1 with
            | none => none
            | some (st2, ev2) => some (st2, ev1 ++ drained.2 ++ ev2)
          else some (st1, ev1)
      else some (st, [])
    match inner with
    | none => none
    | some (st', ev) =>
      some ({ st' with cli := M.T.stop (M.T.flush st'.cli), isConnected := false }, ev)

/-- `SSLClient::flush`: if the accumulator holds pending bytes, run the pump
until `RECVAPP`; resulting errors are only logged. -/
def flushFn (M : Model ε τ) :
    Nat → SSLState ε τ → Option (SSLState ε τ × List Event)
  | 0, _ => none
  | fuel+1, st =>
    if st.writeIdx > 0 then
      match runUntilLoop M fuel BR_SSL_RECVAPP st.clock st with
      | none => none
      | some (_, st1, ev) => some (st1, ev)
    else some (st, [])

/-- `SSLClient::connected`: poll the transport, compute the engine verdict and
the write-error flag; on an unexpected transport drop set the sticky error (if
the transport reports its own write error), clear `m_is_connected` and tear
down.  The returned verdict is the conjunction of the transport poll and the
engine verdict computed at entry. -/
def connectedFn (M : Model ε τ) :
    Nat → SSLState ε τ → Option (Bool × SSLState ε τ × List Event)
  | 0, _ => none
  | fuel+1, st =>
    let c_con := M.T.connected st.cli
    let br_con := (M.E.currentState st.eng != BR_SSL_CLOSED) && st.isConnected
    if br_con ∧ c_con = false then
      let st1 :=
        if M.T.getWriteError st.cli ≠ 0 then
          { st with writeError := SSL_CLIENT_WRTIE_ERROR }
        else st
      let st2 := { st1 with isConnected := false }
      match stopFn M fuel st2 with
      | none => none
      | some (st3, ev) => some (c_con && br_con, st3, ev)
    else some (c_con && br_con, st, [])

end

/-- `SSLClient::m_run_until`: record `start := millis()` and iterate the loop. -/
def m_run_until (M : Model ε τ) (fuel target : Nat) (st : SSLState ε τ) :
    Option (Int × SSLState ε τ × List Event) :=
  runUntilLoop M fuel target st.clock st

/-- Inner `while (cur_idx < size)` loop of `SSLClient::write`: copy
`cpamount = min (size - cur_idx) (alen - m_write_idx)` bytes into the engine's
send-app buffer (the copy itself is opaque to the engine oracle); when the
buffer fills exactly, acknowledge `m_write_idx` bytes, reset the index and wait
for `SENDAPP` again via `m_run_until`, refreshing `alen`. -/
def writeLoop (M : Model ε τ) :
    Nat → Nat → Nat → Nat → SSLState ε τ → Option (Nat × SSLState ε τ × List Event)
  | 0, _, _, _, _ => none
  | fuel+1, size, cur_idx, alen, st =>
    if cur_idx < size then
      let cpamount :=
        if size - cur_idx ≥ alen - st.writeIdx then alen - st.writeIdx else size - cur_idx
      let st1 := { st with writeIdx := st.writeIdx + cpamount }
      let cur1 := cur_idx + cpamount
      if st1.writeIdx = alen then
        let st2 := { st1 with eng := M.E.sendappAck st1.eng st1.writeIdx, writeIdx := 0 }
        match m_run_until M fuel BR_SSL_SENDAPP st2 with
        | none => none
        | some (r, st3, ev1) =>
          if r < 0 then some (0, st3, Event.sendappAck alen alen :: ev1)
          else
            match writeLoop M fuel size cur1 (M.E.sendappLen st3.eng) st3 with
            | none => none
            | some (res, st4, ev2) =>
              some (res, st4, Event.sendappAck alen alen :: ev1 ++ ev2)
      else
        writeLoop M fuel size cur1 alen st1
    else some (size, st, [])

/-- `SSLClient::write(buf, size)`: refuse (returning 0) unless soft-connected
with a non-null, non-empty input; otherwise read the send-app buffer length and
run the accumulator loop.  `bufNull` models a NULL `buf` argument; the bytes
themselves are opaque. -/
def writeFn (M : Model ε τ) :
    Nat → Bool → Nat → SSLState ε τ → Option (Nat × SSLState ε τ × List Event)
  | 0, _, _, _ => none
  | fuel+1, bufNull, size, st =>
    if m_soft_connected M st = false ∨ bufNull = true ∨ size = 0 then some (0, st, [])
    else writeLoop M fuel size 0 (M.E.sendappLen st.eng) st

/-- `SSLClient::available`: refuse (0) unless soft-connected; pump the engine;
on `RECVAPP` report the receive-app buffer length; flush the engine when stuck
in `SENDAPP`; otherwise 0. -/
def availableFn (M : Model ε τ) :
    Nat → SSLState ε τ → Option (Int × SSLState ε τ × List Event)
  | 0, _ => none
  | fuel+1, st =>
    if m_soft_connected M st = false then some (0, st, [])
    else
      match m_update_engine M fuel st with
      | none => none
      | some (state, st1, ev) =>
        if state = 0 then some (0, st1, ev)
        else if state &&& BR_SSL_RECVAPP ≠ 0 then
          some ((M.E.recvappLen st1.eng : Int), st1, ev)
        else if state = BR_SSL_CLOSED then some (0, st1, ev)
        else if state &&& BR_SSL_SENDAPP ≠ 0 then
          some (0, { st1 with eng := M.E.flush st1.eng }, ev)
        else some (0, st1, ev)

/-- `SSLClient::read(buf, size)`: fail (-1) unless `available() > 0` and
`size > 0`; otherwise copy `min size alen` bytes out of the receive-app buffer,
acknowledge exactly that many to the engine and return the count.  The second
component of a successful result is the bytes delivered to the caller. -/
def readFn (M : Model ε τ) :
    Nat → Nat → SSLState ε τ → Option (Int × List Nat × SSLState ε τ × List Event)
  | 0, _, _ => none
  | fuel+1, size, st =>
    match availableFn M fuel st with
    | none => none
    | some (a, st1, ev) =>
      if a ≤ 0 ∨ size = 0 then some (-1, [], st1, ev)
      else
        let data := (M.E.recvappBuf st1.eng).getD []
        let read_amount := if size > data.length then data.length else size
        let st2 := { st1 with eng := M.E.recvappAck st1.eng read_amount }
        some ((read_amount : Int), data.take read_amount, st2,
          ev ++ [Event.recvappAck read_amount data.length])

/-- `SSLClient::peek`: fail (-1) unless `available() > 0`; otherwise return the
first byte of the receive-app buffer without acknowledging anything. -/
def peekFn (M : Model ε τ) :
    Nat → SSLState ε τ → Option (Int × SSLState ε τ × List Event)
  | 0, _ => none
  | fuel+1, st =>
    match availableFn M fuel st with
    | none => none
    | some (a, st1, ev) =>
      if a ≤ 0 then some (-1, st1, ev)
      else some ((((M.E.recvappBuf st1.eng).getD []).headD 0 : Int), st1, ev)

/-- Session store step of `SSLClient::m_start_ssl` (lines 360–366): when no
cached session was resumed and a hostname is known, evict index 0 if the cache
is at (or beyond) capacity, then append the fresh session.  Note
`std::vector::erase(begin())` on an empty vector — reachable when
`m_max_sessions = 0` — is undefined behaviour in C++; it is modelled here as
`List.eraseIdx 0 [] = []`, a no-op. -/
def sessionStore (maxSessions : Nat) (cache : List SSLSession) (host : String) :
    List SSLSession :=
  let cache' := if cache.length ≥ maxSessions then cache.eraseIdx 0 else cache
  cache' ++ [⟨host⟩]

/-- `SSLClient::m_get_session_index`: linear scan for the first session whose
hostname equals `host` exactly; -1 on a NULL host or a miss.  (The source
iterates with a `uint8_t` index, faithful for caches of fewer than 256
entries — guaranteed by the tiny recommended `m_max_sessions`.) -/
def m_get_session_index (sessions : List SSLSession) (host : Option String) : Int :=
  match host with
  | none => -1
  | some h =>
    match sessions.findIdx? (fun s => s.hostname == h) with
    | some i => (i : Int)
    | none => -1

/-- `SSLClient::getSession` as an index: `none` models the NULL return. -/
def getSessionIdx (sessions : List SSLSession) (host : String) : Option Nat :=
  let i := m_get_session_index sessions (some host)
  if i < 0 then none else some i.toNat

/-- `SSLClient::removeSession`: erase the matching cache entry, if any. -/
def removeSession (sessions : List SSLSession) (host : Option String) :
    List SSLSession :=
  let i := m_get_session_index sessions host
  if i ≥ 0 then sessions.eraseIdx i.toNat else sessions

/-- `SSLClient::m_start_ssl(host, ssl_ses)`: clear the sticky error, inject
entropy, install the resumed session parameters if one was found, reset the
engine (failure sets `SSL_BR_CONNECT_FAIL`), pump until `SENDAPP` (failure
returns 0), then mark connected and either overwrite the resumed session's
opaque parameter blob in place (cache unchanged in this model) or store a new
session for the hostname. -/
def m_start_ssl (M : Model ε τ) (fuel : Nat) (host : Option String)
    (sesIdx : Option Nat) (st : SSLState ε τ) :
    Option (Int × SSLState ε τ × List Event) :=
  let st0 := { st with writeError := SSL_OK }
  let st1 := { st0 with eng := M.E.injectEntropy st0.eng }
  let st2 := if sesIdx.isSome then { st1 with eng := M.E.setSession st1.eng } else st1
  let rs := M.E.reset st2.eng host
  let st3 := { st2 with eng := rs.2 }
  if rs.1 = false then some (0, { st3 with writeError := SSL_BR_CONNECT_FAIL }, [])
  else
    match m_run_until M fuel BR_SSL_SENDAPP st3 with
    | none => none
    | some (r, st4, ev) =>
      if r < 0 then some (0, st4, ev)
      else
        let st5 := { st4 with isConnected := true }
        let st6 :=
          match sesIdx, host with
          | some _, _ => st5
          | none, some h => { st5 with sessions := sessionStore st5.maxSessions st5.sessions h }
          | none, none => st5
        some (1, st6, ev)

/-- `SSLClient::connect(host, port)`: reset the accumulator index, connect the
transport (failure sets `SSL_CLIENT_CONNECT_FAIL`), then start SSL with any
cached session for this hostname. -/
def connectHost (M : Model ε τ) (fuel : Nat) (host : String) (st : SSLState ε τ) :
    Option (Int × SSLState ε τ × List Event) :=
  let st1 := { st with writeIdx := 0 }
  let cn := M.T.connect st1.cli
  let st2 := { st1 with cli := cn.2 }
  if cn.1 = false then some (0, { st2 with writeError := SSL_CLIENT_CONNECT_FAIL }, [])
  else m_start_ssl M fuel (some host) (getSessionIdx st2.sessions host) st2

/-- Harness for a sequence of consecutive `write` calls (claim C5): perform the
calls in order, concatenating the traces. -/
def writeSeq (M : Model ε τ) (fuel : Nat) :
    List Nat → SSLState ε τ → Option (SSLState ε τ × List Event)
  | [], st => some (st, [])
  | n :: rest, st =>
    match writeFn M fuel false n st with
    | none => none
    | some (_, st1, ev1) =>
      match writeSeq M fuel rest st1 with
      | none => none
      | some (st2, evs) => some (st2, ev1 ++ evs)

/-! Helper lemmas about traces. -/

theorem eventsOk_nil : EventsOk [] := by
  intro e he
  simp at he

theorem eventsOk_cons {e : Event} {l : List Event} :
    EventsOk (e :: l) ↔ ackOk e = true ∧ EventsOk l := by
  constructor
  · intro h
    exact ⟨h e (by simp), fun x hx => h x (by simp [hx])⟩
  · rintro ⟨h1, h2⟩ x hx
    rcases List.mem_cons.mp hx with rfl | hx
    · exact h1
    · exact h2 x hx

theorem eventsOk_append {l₁ l₂ : List Event} :
    EventsOk (l₁ ++ l₂) ↔ EventsOk l₁ ∧ EventsOk l₂ := by
  constructor
  · intro h
    exact ⟨fun x hx => h x (by simp [hx]), fun x hx => h x (by simp [hx])⟩
  · rintro ⟨h1, h2⟩ x hx
    rcases List.mem_append.mp hx with hx | hx
    · exact h1 x hx
    · exact h2 x hx

/-- Bounds invariant over the whole mutual pump: whenever the transport obeys
its interface contract (a write or read never reports more bytes transferred
than were requested), every acknowledgement event produced by the pump, the
pump driver, teardown, flush or the connectivity poll stays within the length
the engine had reported for that buffer. -/
theorem eventsOk_all (M : Model ε τ)
    (hW : ∀ c n, (M.T.write c n).1 ≤ (n : Int))
    (hR : ∀ c n, (M.T.read c n).1 ≤ (n : Int)) :
    ∀ fuel : Nat,
      (∀ st out, m_update_engine M fuel st = some out → EventsOk out.2.2) ∧
      (∀ target start st out, runUntilLoop M fuel target start st = some out →
        EventsOk out.2.2) ∧
      (∀ st out, stopFn M fuel st = some out → EventsOk out.2) ∧
      (∀ st out, flushFn M fuel st = some out → EventsOk out.2) ∧
      (∀ st out, connectedFn M fuel st = some out → EventsOk out.2.2) := by
  intro fuel
  induction fuel with
  | zero =>
    refine ⟨?_, ?_, ?_, ?_, ?_⟩ <;> intros _ _ <;>
      first
        | (intro h; simp [m_update_engine, stopFn, flushFn, connectedFn] at h)
        | (intros _ _ h; simp [runUntilLoop] at h)
  | succ n ih =>
    obtain ⟨ihU, ihL, ihS, ihF, ihC⟩ := ih
    refine ⟨?_, ?_, ?_, ?_, ?_⟩
    · -- m_update_engine
      intro st out h
      simp only [m_update_engine] at h
      split at h
      · cases h
        exact eventsOk_nil
      · split at h
        · -- SENDREC branch
          split at h
          · -- wlen ≤ 0: transport error path
            split at h
            · simp at h
            · next heq =>
                cases h
                exact eventsOk_cons.mpr ⟨rfl, ihS _ _ heq⟩
          · -- wlen > 0: ack and loop
            split at h
            · simp at h
            · next heq =>
                cases h
                refine eventsOk_cons.mpr ⟨rfl, eventsOk_cons.mpr ⟨?_, ihU _ _ heq⟩⟩
                exact decide_eq_true (Int.toNat_le.mpr (hW _ _))
        · split at h
          · -- m_write_idx > 0
            split at h
            · -- engine not ready for app data
              split at h
              · simp at h
              · next heq =>
                  cases h
                  exact ihS _ _ heq
            · split at h
              · -- null send-app buffer
                split at h
                · simp at h
                · next heq =>
                    cases h
                    exact ihS _ _ heq
              · split at h
                · -- alen = 0
                  split at h
                  · simp at h
                  · next heq =>
                      cases h
                      exact ihS _ _ heq
                · split at h
                  · -- alen < m_write_idx
                    split at h
                    · simp at h
                    · next heq =>
                        cases h
                        exact ihS _ _ heq
                  · -- hand the accumulated bytes to the engine
                    split at h
                    · simp at h
                    · next heq =>
                        cases h
                        refine eventsOk_cons.mpr ⟨?_, ihU _ _ heq⟩
                        simp only [ackOk]
                        exact decide_eq_true (by omega)
          · split at h
            · -- RECVREC branch
              split at h
              · -- avail > 0; the read request `min avail len` splits into two cases
                split at h
                · -- request = avail (avail < len)
                  split at h
                  · -- rlen ≤ 0: transport error path
                    split at h
                    · simp at h
                    · next heq =>
                        cases h
                        exact eventsOk_cons.mpr ⟨rfl, ihS _ _ heq⟩
                  · -- rlen > 0: ack and loop
                    split at h
                    · simp at h
                    · next heq =>
                        cases h
                        refine eventsOk_cons.mpr ⟨rfl, eventsOk_cons.mpr ⟨?_, ihU _ _ heq⟩⟩
                        refine decide_eq_true (Int.toNat_le.mpr (le_trans (hR _ _) ?_))
                        omega
                · -- request = len (avail ≥ len)
                  split at h
                  · split at h
                    · simp at h
                    · next heq =>
                        cases h
                        exact eventsOk_cons.mpr ⟨rfl, ihS _ _ heq⟩
                  · split at h
                    · simp at h
                    · next heq =>
                        cases h
                        refine eventsOk_cons.mpr ⟨rfl, eventsOk_cons.mpr ⟨?_, ihU _ _ heq⟩⟩
                        exact decide_eq_true (Int.toNat_le.mpr (hR _ _))
              · -- waiting for the server
                cases h
                exact eventsOk_nil
            · -- application-layer readiness
              cases h
              exact eventsOk_nil
    · -- runUntilLoop
      intro target start st out h
      simp only [runUntilLoop] at h
      split at h
      · simp at h
      · next hu =>
        split at h
        · cases h
          exact ihU _ _ hu
        · split at h
          · -- timeout path
            split at h
            · simp at h
            · next heq =>
                cases h
                exact eventsOk_append.mpr ⟨ihU _ _ hu, ihS _ _ heq⟩
          · split at h
            · cases h
              exact ihU _ _ hu
            · split at h
              · split at h
                · -- conflict resolution A, non-null buffer
                  split at h
                  · simp at h
                  · next heq =>
                      cases h
                      refine eventsOk_append.mpr
                        ⟨ihU _ _ hu, eventsOk_cons.mpr ⟨?_, ihL _ _ _ _ heq⟩⟩
                      simp [ackOk]
                · -- conflict resolution A, null buffer
                  split at h
                  · simp at h
                  · next heq =>
                      cases h
                      exact eventsOk_append.mpr ⟨ihU _ _ hu, ihS _ _ heq⟩
              · -- keep looping (possibly after conflict resolution B)
                split at h
                · simp at h
                · next heq =>
                    cases h
                    exact eventsOk_append.mpr ⟨ihU _ _ hu, ihL _ _ _ _ heq⟩
    · -- stopFn
      intro st out h
      simp only [stopFn] at h
      -- outer match on the guarded drain-and-flush block
      split at h
      · simp at h
      · next hinner =>
        cases h
        split at hinner
        · -- engine neither closed nor unstarted
          split at hinner
          · simp at hinner
          · next _x conn st1 ev1 hc =>
            split at hinner
            · -- connected: drain the receive-app buffer, then flush
              split at hinner
              · simp at hinner
              · next _y st2 ev2 heq =>
                  cases hinner
                  cases hE : M.E.recvappBuf st1.eng with
                  | some data =>
                      simp only [hE] at heq ⊢
                      refine eventsOk_append.mpr
                        ⟨eventsOk_append.mpr ⟨ihC _ _ hc, ?_⟩, ihF _ _ heq⟩
                      exact eventsOk_cons.mpr ⟨by simp [ackOk], eventsOk_nil⟩
                  | none =>
                      simp only [hE] at heq ⊢
                      exact eventsOk_append.mpr
                        ⟨eventsOk_append.mpr ⟨ihC _ _ hc, eventsOk_nil⟩, ihF _ _ heq⟩
            · cases hinner
              exact ihC _ _ hc
        · cases hinner
          exact eventsOk_nil
    · -- flushFn
      intro st out h
      simp only [flushFn] at h
      split at h
      · split at h
        · simp at h
        · next heq =>
            cases h
            exact ihL _ _ _ _ heq
      · cases h
        exact eventsOk_nil
    · -- connectedFn
      intro st out h
      simp only [connectedFn] at h
      split at h
      · split at h
        · simp at h
        · next heq =>
            cases h
            exact ihS _ _ heq
      · cases h
        exact eventsOk_nil

/-! Concrete oracle instances used to witness the theorems on closed inputs. -/

/-- Engine oracle that constantly reports `state` and fixed buffers; every
acknowledgement and reset leaves it unchanged. -/
def constEngine (state : Nat) (sendrecLen recvrecLen : Nat) (sendappLen : Option Nat)
    (recvappData : Option (List Nat)) : Engine Unit where
  currentState := fun _ => state
  sendrecBuf := fun _ => sendrecLen
  sendrecAck := fun e _ => e
  recvrecBuf := fun _ => recvrecLen
  recvrecAck := fun e _ => e
  sendappBuf := fun _ => sendappLen
  sendappAck := fun e _ => e
  recvappBuf := fun _ => recvappData
  recvappAck := fun e _ => e
  flush := fun e => e
  injectEntropy := fun e => e
  setSession := fun e => e
  reset := fun e _ => (true, e)

/-- Staged engine for the pump-trace witness: stage 0 has a 5-byte record to
send; stage 1 waits for 10 bytes of incoming ciphertext; stage 2 offers one
decrypted byte. -/
def stagedEngine : Engine Nat where
  currentState := fun e => if e = 0 then BR_SSL_SENDREC else if e = 1 then BR_SSL_RECVREC else BR_SSL_RECVAPP
  sendrecBuf := fun _ => 5
  sendrecAck := fun _ _ => 1
  recvrecBuf := fun _ => 10
  recvrecAck := fun _ _ => 2
  sendappBuf := fun _ => none
  sendappAck := fun e _ => e
  recvappBuf := fun e => if e = 2 then some [7] else none
  recvappAck := fun e _ => e
  flush := fun e => e
  injectEntropy := fun e => e
  setSession := fun e => e
  reset := fun e _ => (true, e)

/-- Transport oracle over `Unit`: connected, fixed `available` count, writes
and reads report exactly the requested length, no transport error. -/
def unitTransport (avail : Nat) (conn : Bool) : Transport Unit where
  connected := fun _ => conn
  connect := fun c => (true, c)
  write := fun c n => ((n : Int), c)
  read := fun c n => ((n : Int), c)
  available := fun _ => avail
  flush := fun c => c
  stop := fun c => c
  getWriteError := fun _ => 0

/-- Transport oracle whose state is the number of incoming bytes remaining:
reads consume and deliver at most that many bytes. -/
def byteTransport : Transport Nat where
  connected := fun _ => true
  connect := fun c => (true, c)
  write := fun c n => ((n : Int), c)
  read := fun c n => ((min c n : Int), c - min c n)
  available := fun c => c
  flush := fun c => c
  stop := fun c => c
  getWriteError := fun _ => 0

/-- Base client state over concrete oracles: fresh accumulator, no sticky
error, marked connected, empty session cache, the constructor's 30 s timeout. -/
def baseSt (e : ε) (c : τ) : SSLState ε τ :=
  { eng := e, cli := c, writeIdx := 0, writeError := 0, isConnected := true,
    sessions := [], maxSessions := 3, timeout := 30000, clock := 0 }

/-- Staged engine plus byte-counting transport (3 incoming bytes pending). -/
def stagedModel : Model Nat Nat := ⟨stagedEngine, byteTransport⟩

/-- Start state for the staged pump run. -/
def stagedSt : SSLState Nat Nat := baseSt 0 3

/-- Engine stuck waiting for 100 bytes of incoming ciphertext, over a
transport that never has data; 20 ms timeout. -/
def timeoutModel : Model Unit Unit := ⟨constEngine 4 0 100 none none, unitTransport 0 true⟩

/-- Start state for the timeout scenario. -/
def timeoutSt : SSLState Unit Unit := { baseSt () () with timeout := 20 }

/-- Engine that reports `RECVAPP` with two unread decrypted bytes; once they
are acknowledged away it reports `SENDAPP` with a 64-byte buffer. -/
def drainEngine : Engine Nat where
  currentState := fun e => if e = 0 then 16 else 8
  sendrecBuf := fun _ => 0
  sendrecAck := fun e _ => e
  recvrecBuf := fun _ => 0
  recvrecAck := fun e _ => e
  sendappBuf := fun e => if e = 0 then none else some 64
  sendappAck := fun e _ => e
  recvappBuf := fun e => if e = 0 then some [9, 8] else none
  recvappAck := fun _ _ => 1
  flush := fun e => e
  injectEntropy := fun e => e
  setSession := fun e => e
  reset := fun e _ => (true, e)

/-- Drain-scenario model and state. -/
def drainModel : Model Nat Unit := ⟨drainEngine, unitTransport 0 true⟩

/-- Start state for the drain scenario. -/
def drainSt : SSLState Nat Unit := baseSt 0 ()

/-- Engine constantly offering `RECVAPP` with bytes `[9, 8]`. -/
def recvAppModel : Model Unit Unit :=
  ⟨constEngine 16 0 0 none (some [9, 8]), unitTransport 0 true⟩

/-- Engine constantly in `SENDAPP` with a 100-byte application buffer. -/
def sendAppModel : Model Unit Unit :=
  ⟨constEngine 8 0 0 (some 100) none, unitTransport 0 true⟩

/-- Engine waiting on `RECVREC` over a transport that reports disconnected. -/
def downModel : Model Unit Unit := ⟨constEngine 4 0 100 none none, unitTransport 0 false⟩

/-!
Claim theorems.
-/

/-- C1.  For every sequence of engine states fed to the pump, one call to
`m_update_engine` never acknowledges to the engine more bytes in any
directional buffer than the length the engine most recently reported for that
buffer, provided the transport honours its contract of never reporting more
bytes written or read than requested: every acknowledgement event in the
call's trace (send-record ack = the transport's written count ≤ the reported
record length; recv-record ack = the transport's read count ≤
min(available, reported length) ≤ reported length; send-app ack of
`m_write_idx` only after the `alen < m_write_idx` check failed) is in
bounds. -/
theorem update_engine_acks_bounded (M : Model ε τ)
    (hW : ∀ c n, (M.T.write c n).1 ≤ (n : Int))
    (hR : ∀ c n, (M.T.read c n).1 ≤ (n : Int))
    (fuel : Nat) (st : SSLState ε τ) (out : Nat × SSLState ε τ × List Event)
    (h : m_update_engine M fuel st = some out) : EventsOk out.2.2 :=
  (eventsOk_all M hW hR fuel).1 st out h

/-- Witness for C1: a concrete pump run that sends a 5-byte record and reads
3 of 10 requested incoming bytes; all four recorded events are in bounds. -/
theorem update_engine_acks_bounded_witness :
    m_update_engine stagedModel 8 stagedSt =
      some (16, baseSt 2 0,
        [Event.netWrite 5 5, Event.sendrecAck 5 5, Event.netRead 3 3,
          Event.recvrecAck 3 10]) ∧
    EventsOk [Event.netWrite 5 5, Event.sendrecAck 5 5, Event.netRead 3 3,
      Event.recvrecAck 3 10] :=
  ⟨rfl, update_engine_acks_bounded stagedModel (fun _ _ => le_refl _)
    (fun c n => by
      simp only [stagedModel, byteTransport]
      exact_mod_cast Nat.min_le_right c n) 8 stagedSt _ rfl⟩

/-- Folding the store step over a host list performs exactly one eviction when
the lengths add up to one more than the capacity. -/
theorem foldl_sessionStore (N : Nat) (hN : 1 ≤ N) :
    ∀ (hs : List String) (c : List SSLSession), hs ≠ [] →
      c.length + hs.length = N + 1 →
      List.foldl (sessionStore N) c hs =
        (c ++ hs.map SSLSession.mk).drop 1 := by
  intro hs
  induction hs with
  | nil => intro c hne _; exact absurd rfl hne
  | cons h hs ih =>
    intro c _ hlen
    cases hs with
    | nil =>
      have hcN : c.length = N := by simpa using hlen
      have hstep : sessionStore N c h = c.eraseIdx 0 ++ [SSLSession.mk h] := by
        simp only [sessionStore]
        rw [if_pos (le_of_eq hcN.symm)]
      rw [List.foldl_cons, List.foldl_nil, hstep]
      cases c with
      | nil => simp at hcN; omega
      | cons a c' => simp [List.eraseIdx]
    | cons h2 hs2 =>
      have hlt : c.length < N := by
        simp only [List.length_cons] at hlen
        omega
      have hstep : sessionStore N c h = c ++ [SSLSession.mk h] := by
        simp only [sessionStore]
        rw [if_neg (by omega)]
      rw [List.foldl_cons, hstep,
        ih (c ++ [SSLSession.mk h]) (by simp) (by simp at hlen ⊢; omega)]
      simp

/-- A lookup for a hostname absent from the list finds no index, whatever the
running start index. -/
theorem findIdx?_hostname_none_go (h0 : String) (rest : List String) (hmem : h0 ∉ rest) :
    ∀ i, List.findIdx? (fun s => s.hostname == h0) (rest.map SSLSession.mk) i = none := by
  induction rest with
  | nil => intro i; rfl
  | cons a l ih =>
    intro i
    have hne : a ≠ h0 := by
      rintro rfl
      exact hmem (List.mem_cons_self _ _)
    have hrest : h0 ∉ l := fun hm => hmem (List.mem_cons_of_mem a hm)
    simp only [List.map_cons, List.findIdx?]
    rw [if_neg (by simp [hne])]
    exact ih hrest (i + 1)

/-- A lookup for a hostname absent from the cache finds no index. -/
theorem findIdx?_hostname_none (h0 : String) (rest : List String) (hmem : h0 ∉ rest) :
    (rest.map SSLSession.mk).findIdx? (fun s => s.hostname == h0) = none :=
  findIdx?_hostname_none_go h0 rest hmem 0

/-- C2.  For every capacity N ≥ 1, storing sessions for N+1 distinct hostnames
(each store being the `m_start_ssl` store step: evict index 0 when at
capacity, then append) leaves exactly the N most-recently-inserted sessions in
their original relative insertion order, and a subsequent lookup
(`m_get_session_index`, a pure function that cannot evict or reorder) of the
first-inserted hostname misses with -1. -/
theorem sessionCache_fifo (N : Nat) (h0 : String) (rest : List String)
    (hN : 1 ≤ N) (hlen : rest.length = N) (hnd : (h0 :: rest).Nodup) :
    List.foldl (sessionStore N) [] (h0 :: rest) = rest.map SSLSession.mk ∧
    m_get_session_index (rest.map SSLSession.mk) (some h0) = -1 := by
  constructor
  · rw [foldl_sessionStore N hN (h0 :: rest) [] (by simp) (by simp [hlen])]
    simp
  · have hmem : h0 ∉ rest := (List.nodup_cons.mp hnd).1
    simp only [m_get_session_index]
    rw [findIdx?_hostname_none h0 rest hmem]

/-- Witness for C2, the concrete scenario from the specification: capacity 2,
hostnames "a.com", "b.com", "c.com" in order; exactly {"b.com", "c.com"}
survive in order and the lookup of "a.com" misses. -/
theorem sessionCache_fifo_witness :
    (1 ≤ 2 ∧ (["b.com", "c.com"] : List String).length = 2 ∧
      (("a.com" : String) :: ["b.com", "c.com"]).Nodup) ∧
    List.foldl (sessionStore 2) [] ["a.com", "b.com", "c.com"] =
      [SSLSession.mk "b.com", SSLSession.mk "c.com"] ∧
    m_get_session_index [SSLSession.mk "b.com", SSLSession.mk "c.com"]
      (some "a.com") = -1 :=
  ⟨⟨by decide, by decide, by decide⟩,
    sessionCache_fifo 2 "a.com" ["b.com", "c.com"] (by decide) (by decide) (by decide)⟩

/-- Client state with a sticky write error set. -/
def stickySt : SSLState Unit Unit := { baseSt () () with writeError := SSL_BR_WRITE_ERROR }

/-- C3.  Once a non-OK sticky write error is set, every call to `write`,
`available`, `read` or `peek` returns its failure sentinel (0, 0, -1, -1)
leaving the whole state — engine and transport included — untouched and
producing no acknowledgement or transfer event; and `m_start_ssl` (the
handshake entered by `connect`) behaves exactly as if the sticky error had
already been cleared to `SSL_OK`, its very first action. -/
theorem sticky_error_refused (M : Model ε τ) (st : SSLState ε τ)
    (h : st.writeError ≠ 0) :
    (∀ fuel bufNull size, writeFn M (fuel+1) bufNull size st = some (0, st, [])) ∧
    (∀ fuel, availableFn M (fuel+1) st = some (0, st, [])) ∧
    (∀ fuel size, readFn M (fuel+2) size st = some (-1, [], st, [])) ∧
    (∀ fuel, peekFn M (fuel+2) st = some (-1, st, [])) ∧
    (∀ fuel host sesIdx st', m_start_ssl M fuel host sesIdx st' =
      m_start_ssl M fuel host sesIdx { st' with writeError := SSL_OK }) := by
  have hsc : m_soft_connected M st = false := by simp [m_soft_connected, h]
  refine ⟨?_, ?_, ?_, ?_, ?_⟩
  · intro fuel bufNull size
    simp [writeFn, hsc]
  · intro fuel
    simp [availableFn, hsc]
  · intro fuel size
    simp [readFn, availableFn, hsc]
  · intro fuel
    simp [peekFn, availableFn, hsc]
  · intro fuel host sesIdx st'
    rfl

/-- Witness for C3: with the sticky error `SSL_BR_WRITE_ERROR` set, all four
data operations refuse with their sentinels on an engine that is otherwise
full of readable data. -/
theorem sticky_error_refused_witness :
    stickySt.writeError ≠ 0 ∧
    writeFn recvAppModel 1 false 5 stickySt = some (0, stickySt, []) ∧
    availableFn recvAppModel 1 stickySt = some (0, stickySt, []) ∧
    readFn recvAppModel 2 5 stickySt = some (-1, [], stickySt, []) ∧
    peekFn recvAppModel 2 stickySt = some (-1, stickySt, []) :=
  ⟨by decide,
    (sticky_error_refused recvAppModel stickySt (by decide)).1 0 false 5,
    (sticky_error_refused recvAppModel stickySt (by decide)).2.1 0,
    (sticky_error_refused recvAppModel stickySt (by decide)).2.2.1 0 5,
    (sticky_error_refused recvAppModel stickySt (by decide)).2.2.2.1 0⟩

/-- C4 counterexample: with the transport connected, the engine open and
marked connected, but the sticky write error set to `SSL_BR_WRITE_ERROR`,
`connected()` still returns true — the write-error conjunct claimed by the
specification is only logged, never part of the returned verdict. -/
theorem connected_claim_cx :
    connectedFn sendAppModel 1 stickySt = some (true, stickySt, []) ∧
    ¬ (sendAppModel.T.connected stickySt.cli = true ∧
       (sendAppModel.E.currentState stickySt.eng ≠ BR_SSL_CLOSED ∧
         stickySt.isConnected = true) ∧
       stickySt.writeError = SSL_OK) :=
  ⟨rfl, by decide⟩

/-- C4 amended: every call to `connected()` recomputes its verdict from the
current transport poll and engine state (nothing is cached) and returns
exactly `transport_connected && engine_state ≠ CLOSED && m_is_connected`; the
sticky write error does not enter the returned value. -/
theorem connected_verdict (M : Model ε τ) (fuel : Nat) (st : SSLState ε τ)
    (out : Bool × SSLState ε τ × List Event)
    (h : connectedFn M (fuel+1) st = some out) :
    out.1 = (M.T.connected st.cli &&
      ((M.E.currentState st.eng != BR_SSL_CLOSED) && st.isConnected)) := by
  simp only [connectedFn] at h
  split at h
  · split at h
    · simp at h
    · next heq =>
        cases h
        rfl
  · cases h
    rfl

/-- Witness for C4's amended claim at a concrete input. -/
theorem connected_verdict_witness :
    connectedFn sendAppModel 1 stickySt = some (true, stickySt, []) ∧
    (true : Bool) = (sendAppModel.T.connected stickySt.cli &&
      ((sendAppModel.E.currentState stickySt.eng != BR_SSL_CLOSED) &&
        stickySt.isConnected)) :=
  ⟨rfl, connected_verdict sendAppModel 0 stickySt (true, stickySt, []) rfl⟩

/-- A single `write` whose bytes fit strictly below the remaining send-app
capacity only advances the accumulator cursor: no acknowledgement, no
transport traffic, no engine interaction at all. -/
theorem writeFn_small (M : Model ε τ) (st : SSLState ε τ) (n fuel : Nat)
    (hsc : m_soft_connected M st = true) (hn : 0 < n)
    (hcap : st.writeIdx + n < M.E.sendappLen st.eng) :
    writeFn M (fuel+3) false n st =
      some (n, { st with writeIdx := st.writeIdx + n }, []) := by
  simp only [writeFn]
  rw [if_neg (by simp [hsc, hn.ne'])]
  simp only [writeLoop]
  rw [if_pos hn]
  rw [if_neg (show ¬ (n - 0 ≥ M.E.sendappLen st.eng - st.writeIdx) by omega)]
  rw [if_neg (show ¬ (st.writeIdx + (n - 0) = M.E.sendappLen st.eng) by omega)]
  rw [if_neg (show ¬ (0 + (n - 0) < n) by omega)]
  rfl

/-- C5.  For every sequence of consecutive `write` calls on a soft-connected
client whose accumulated sizes stay strictly below the engine's reported
send-app capacity, the accumulator cursor `m_write_idx` grows by exactly each
call's size (so it strictly increases at every call) and no network round is
triggered: the combined event trace is empty — no send-app acknowledgement
and no transport write — and engine and transport states are untouched. -/
theorem write_accumulates (M : Model ε τ) (fuel : Nat) :
    ∀ (sizes : List Nat) (st : SSLState ε τ),
      m_soft_connected M st = true → (∀ n ∈ sizes, 0 < n) →
      st.writeIdx + sizes.sum < M.E.sendappLen st.eng →
      writeSeq M (fuel+3) sizes st =
        some ({ st with writeIdx := st.writeIdx + sizes.sum }, []) := by
  intro sizes
  induction sizes with
  | nil =>
    intro st _ _ _
    simp [writeSeq]
  | cons n rest ih =>
    intro st hsc hpos hcap
    have hn : 0 < n := hpos n (by simp)
    have hcap1 : st.writeIdx + n < M.E.sendappLen st.eng := by
      simp only [List.sum_cons] at hcap
      omega
    have hsc1 : m_soft_connected M { st with writeIdx := st.writeIdx + n } = true := hsc
    have h1 : ∀ m ∈ rest, 0 < m := fun m hm => hpos m (by simp [hm])
    have h2 : st.writeIdx + n + rest.sum < M.E.sendappLen st.eng := by
      simp only [List.sum_cons] at hcap
      omega
    simp only [writeSeq, writeFn_small M st n fuel hsc hn hcap1,
      ih { st with writeIdx := st.writeIdx + n } hsc1 h1 h2]
    simp [Nat.add_assoc]

/-- Witness for C5: two consecutive writes of 3 and 4 bytes into a 100-byte
send-app buffer leave the cursor at 7 with an empty trace. -/
theorem write_accumulates_witness :
    m_soft_connected sendAppModel (baseSt () ()) = true ∧
    writeSeq sendAppModel 3 [3, 4] (baseSt () ()) =
      some ({ baseSt () () with writeIdx := 7 }, []) :=
  ⟨by decide,
    write_accumulates sendAppModel 0 [3, 4] (baseSt () ()) (by decide)
      (by decide) (by decide)⟩

/-- C6.  Whenever an iteration of `m_run_until(target)` observes, before
reaching its target, an engine state containing `RECVAPP` while the target
contains `SENDAPP`: if the receive-app buffer pointer is non-null the pump
resets `m_write_idx` to 0, acknowledges away all reported unread application
bytes, and keeps looping; if the pointer is null it sets the sticky error and
tears down via `stop`, returning -1. -/
theorem run_until_conflictA (M : Model ε τ) (fuel target start : Nat)
    (st st1 : SSLState ε τ) (s : Nat) (ev1 : List Event)
    (hu : m_update_engine M fuel st = some (s, st1, ev1))
    (hne : s ≠ BR_SSL_CLOSED) (herr : st1.writeError = SSL_OK)
    (htime : st1.clock - start ≤ st1.timeout)
    (htgt : s &&& target = 0)
    (hra : s &&& BR_SSL_RECVAPP ≠ 0) (hsa : target &&& BR_SSL_SENDAPP ≠ 0) :
    (∀ data, M.E.recvappBuf st1.eng = some data →
      runUntilLoop M (fuel+1) target start st =
        (runUntilLoop M fuel target start
            { st1 with writeIdx := 0, eng := M.E.recvappAck st1.eng data.length }).map
          (fun o => (o.1, o.2.1, ev1 ++ Event.recvappAck data.length data.length :: o.2.2))) ∧
    (M.E.recvappBuf st1.eng = none →
      runUntilLoop M (fuel+1) target start st =
        (stopFn M fuel { st1 with writeError := SSL_BR_WRITE_ERROR }).map
          (fun o => (-1, o.1, ev1 ++ o.2))) := by
  have hnt : ¬ (s &&& target ≠ 0 ∨ (target = 0 ∧ s = 0)) := by
    simp only [htgt, not_or]
    refine ⟨by simp, ?_⟩
    rintro ⟨rfl, -⟩
    exact hsa (by decide)
  constructor
  · intro data hdata
    simp only [runUntilLoop, hu]
    rw [if_neg (by simp [hne, herr]), if_neg (not_lt.mpr htime), if_neg hnt,
      if_pos ⟨hra, hsa⟩, hdata]
    cases hrec : runUntilLoop M fuel target start
        { st1 with writeIdx := 0, eng := M.E.recvappAck st1.eng data.length } with
    | none => simp [hrec]
    | some o => simp [hrec]
  · intro hdata
    simp only [runUntilLoop, hu]
    rw [if_neg (by simp [hne, herr]), if_neg (not_lt.mpr htime), if_neg hnt,
      if_pos ⟨hra, hsa⟩, hdata]
    cases hrec : stopFn M fuel { st1 with writeError := SSL_BR_WRITE_ERROR } with
    | none => simp [hrec]
    | some o => simp [hrec]

/-- Witness for C6: the drain scenario — the engine reports `RECVAPP` with two
unread bytes and the target is `SENDAPP`; the pump acknowledges both bytes
away and then reaches `SENDAPP` successfully. -/
theorem run_until_conflictA_witness :
    m_update_engine drainModel 3 drainSt = some (16, drainSt, []) ∧
    runUntilLoop drainModel 4 BR_SSL_SENDAPP 0 drainSt =
      (runUntilLoop drainModel 3 BR_SSL_SENDAPP 0
          { drainSt with writeIdx := 0, eng := drainModel.E.recvappAck drainSt.eng 2 }).map
        (fun o => (o.1, o.2.1, [] ++ Event.recvappAck 2 2 :: o.2.2)) :=
  ⟨rfl,
    (run_until_conflictA drainModel 3 BR_SSL_SENDAPP 0 drainSt drainSt 16 []
      rfl (by decide) rfl (by decide) (by decide) (by decide) (by decide)).1
      [9, 8] rfl⟩

set_option maxHeartbeats 1000000 in
/-- C7.  First conjunct: whenever an iteration of `m_run_until` observes,
after pumping, neither a `Closed` state nor a sticky error but the wall clock
more than `timeout` past the entry time, it sets the sticky error to
`SSL_BR_WRITE_ERROR` (the engine-write-error code), tears down via `stop` and
returns -1 — the timeout check precedes even the target check.  Second
conjunct, the concrete starvation scenario: an engine wanting `RECVREC` over
a transport whose `available()` is always 0 makes `m_run_until(SENDAPP)`
(20 ms timeout) return -1 with the sticky error `SSL_BR_WRITE_ERROR ≠ SSL_OK`
after three 10 ms polling delays. -/
theorem run_until_timeout :
    (∀ (ε₁ τ₁ : Type) (M : Model ε₁ τ₁) (fuel target start : Nat)
        (st st1 : SSLState ε₁ τ₁) (s : Nat) (ev1 : List Event),
      m_update_engine M fuel st = some (s, st1, ev1) →
      s ≠ BR_SSL_CLOSED → st1.writeError = SSL_OK →
      st1.clock - start > st1.timeout →
      runUntilLoop M (fuel+1) target start st =
        (stopFn M fuel { st1 with writeError := SSL_BR_WRITE_ERROR }).map
          (fun o => (-1, o.1, ev1 ++ o.2))) ∧
    m_run_until timeoutModel 5 BR_SSL_SENDAPP timeoutSt =
      some (-1, { timeoutSt with writeError := SSL_BR_WRITE_ERROR, isConnected := false, clock := 30 }, []) ∧
    SSL_BR_WRITE_ERROR ≠ SSL_OK := by
  refine ⟨?_, rfl, by decide⟩
  intro ε₁ τ₁ M fuel target start st st1 s ev1 hu hne herr htime
  simp only [runUntilLoop, hu]
  rw [if_neg (by simp [hne, herr]), if_pos htime]
  cases hrec : stopFn M fuel { st1 with writeError := SSL_BR_WRITE_ERROR } with
  | none => simp [hrec]
  | some o => simp [hrec]

/-- Witness for C7's universally quantified conjunct: a concrete iteration
whose clock is already past the deadline takes the timeout exit. -/
theorem run_until_timeout_witness :
    m_update_engine timeoutModel 3 { timeoutSt with clock := 100 } =
      some (4, { timeoutSt with clock := 110 }, []) ∧
    runUntilLoop timeoutModel 4 BR_SSL_SENDAPP 0 { timeoutSt with clock := 100 } =
      (stopFn timeoutModel 3
          { timeoutSt with clock := 110, writeError := SSL_BR_WRITE_ERROR }).map
        (fun o => (-1, o.1, [] ++ o.2)) :=
  ⟨rfl, run_until_timeout.1 Unit Unit timeoutModel 3 BR_SSL_SENDAPP 0
    { timeoutSt with clock := 100 } { timeoutSt with clock := 110 } 4 []
    rfl (by decide) rfl (by decide)⟩

/-- C8 amended: whenever the pump observes `m_write_idx > 0` while the engine
state contains neither `Closed`, nor `SENDREC`, nor `SENDAPP`, it sets the
sticky error to `SSL_BR_WRITE_ERROR` (the engine-write-error code — not
`SSL_INTERNAL_ERROR`, which the neighbouring `alen < m_write_idx` sanity
check uses), tears down via `stop`, and returns 0. -/
theorem update_writeidx_stuck (M : Model ε τ) (fuel : Nat) (st : SSLState ε τ)
    (hclosed : M.E.currentState st.eng &&& BR_SSL_CLOSED = 0)
    (hsr : M.E.currentState st.eng &&& BR_SSL_SENDREC = 0)
    (hw : st.writeIdx > 0)
    (hsa : M.E.currentState st.eng &&& BR_SSL_SENDAPP = 0) :
    m_update_engine M (fuel+1) st =
      (stopFn M fuel { st with writeError := SSL_BR_WRITE_ERROR }).map
        (fun o => (0, o.1, o.2)) := by
  simp only [m_update_engine]
  rw [if_neg (by simp [hclosed]), if_neg (by simp [hsr]), if_pos hw, if_pos hsa]
  cases hrec : stopFn M fuel { st with writeError := SSL_BR_WRITE_ERROR } with
  | none => simp [hrec]
  | some o => simp [hrec]

/-- Client state with one accumulated byte, over a closed transport. -/
def stuckSt : SSLState Unit Unit :=
  { baseSt () () with writeIdx := 1, isConnected := false }

/-- C8 counterexample: in the `m_write_idx > 0` without `SENDAPP` situation
the code sets `SSL_BR_WRITE_ERROR` (4), not the `SSL_INTERNAL_ERROR` (5) the
claim names. -/
theorem update_writeidx_stuck_cx :
    (m_update_engine downModel 5 stuckSt).map (fun o => (o.1, o.2.1.writeError)) =
      some (0, SSL_BR_WRITE_ERROR) ∧
    SSL_BR_WRITE_ERROR ≠ SSL_INTERNAL_ERROR :=
  ⟨rfl, by decide⟩

/-- Witness for C8's amended claim at a concrete input. -/
theorem update_writeidx_stuck_witness :
    0 < stuckSt.writeIdx ∧
    m_update_engine downModel 5 stuckSt =
      (stopFn downModel 4 { stuckSt with writeError := SSL_BR_WRITE_ERROR }).map
        (fun o => (0, o.1, o.2)) :=
  ⟨by decide, update_writeidx_stuck downModel 4 stuckSt rfl rfl (by decide) rfl⟩

/-- C9: with `max_sessions = 0` the store step of `m_start_ssl` still appends
(after an `erase(begin())` on an empty vector, which is undefined behaviour in
C++ and modelled as a no-op), leaving 1 stored session — more than the
configured capacity 0, contradicting the claimed invariant. -/
theorem session_store_capacity_zero :
    (sessionStore 0 [] "a.com").length = 1 ∧
    ¬ ((sessionStore 0 [] "a.com").length ≤ 0) :=
  ⟨rfl, by decide⟩

/-- C10.  In a stable state where the pump reports `RECVAPP` with non-empty
decrypted bytes `b :: rest`, `available()` reports their count n > 0;
`peek()` returns `b`, the first byte of the receive-app buffer, leaving the
entire state untouched and acknowledging nothing (empty trace), so an
immediately following `read` still starts with `b`; and `read(size)` (for
`size > 0`) returns `min size n` bytes — starting with `b` — acknowledging to
the engine exactly the count it returns, and nothing else. -/
theorem peek_read_frame (M : Model ε τ) (fuel : Nat) (st : SSLState ε τ)
    (s b : Nat) (rest : List Nat)
    (hsc : m_soft_connected M st = true)
    (hu : m_update_engine M fuel st = some (s, st, []))
    (hra : s &&& BR_SSL_RECVAPP ≠ 0)
    (hbuf : M.E.recvappBuf st.eng = some (b :: rest)) :
    availableFn M (fuel+1) st = some (((b :: rest).length : Int), st, []) ∧
    peekFn M (fuel+2) st = some ((b : Int), st, []) ∧
    (∀ size, 0 < size →
      readFn M (fuel+2) size st =
        some (((min size (b :: rest).length : Nat) : Int),
          (b :: rest).take (min size (b :: rest).length),
          { st with eng := M.E.recvappAck st.eng (min size (b :: rest).length) },
          [Event.recvappAck (min size (b :: rest).length) (b :: rest).length]) ∧
      ((b :: rest).take (min size (b :: rest).length)).headD 0 = b) := by
  have hs0 : s ≠ 0 := by
    intro h0
    rw [h0] at hra
    exact hra rfl
  have hav : availableFn M (fuel+1) st = some (((b :: rest).length : Int), st, []) := by
    simp only [availableFn, hu]
    rw [if_neg (by simp [hsc]), if_neg hs0, if_pos hra]
    simp [Engine.recvappLen, hbuf]
  have hlenpos : ¬ (((b :: rest).length : Int) ≤ 0) := by
    simp only [List.length_cons]
    omega
  refine ⟨hav, ?_, ?_⟩
  · simp only [peekFn, hav]
    rw [if_neg hlenpos]
    simp [hbuf]
  · intro size hsize
    have hmin : (if size > (b :: rest).length then (b :: rest).length else size) =
        min size (b :: rest).length := by
      rcases Nat.lt_or_ge (b :: rest).length size with hlt | hge
      · rw [if_pos hlt, Nat.min_eq_right (Nat.le_of_lt hlt)]
      · rw [if_neg (Nat.not_lt.mpr hge), Nat.min_eq_left hge]
    constructor
    · simp only [readFn, hav]
      rw [if_neg (by simp [hlenpos, hsize.ne'])]
      simp only [hbuf, Option.getD_some]
      rw [hmin]
      simp
    · have hpos2 : 0 < min size (b :: rest).length :=
        lt_min hsize (by simp)
      cases hm : min size (b :: rest).length with
      | zero => rw [hm] at hpos2; exact absurd hpos2 (by simp)
      | succ k => simp [List.take_succ_cons]

/-- Witness for C10: the constant `RECVAPP` engine holding bytes `[9, 8]`;
`peek` returns 9 without disturbing anything and `read 1` returns exactly
`[9]`, acknowledging exactly 1 byte. -/
theorem peek_read_frame_witness :
    m_update_engine recvAppModel 1 (baseSt () ()) = some (16, baseSt () (), []) ∧
    peekFn recvAppModel 3 (baseSt () ()) = some ((9 : Int), baseSt () (), []) ∧
    readFn recvAppModel 3 1 (baseSt () ()) =
      some ((1 : Int), [9], baseSt () (), [Event.recvappAck 1 2]) :=
  ⟨rfl,
    (peek_read_frame recvAppModel 1 (baseSt () ()) 16 9 [8]
      (by decide) rfl (by decide) rfl).2.1,
    ((peek_read_frame recvAppModel 1 (baseSt () ()) 16 9 [8]
      (by decide) rfl (by decide) rfl).2.2 1 (by decide)).1⟩

end SSLCl
